import Mathlib

/-!
# Verification of `src/PortScanner.py`

A shallow embedding of the basic TCP port scanner in `src/PortScanner.py`.

Effectful collaborators are passed in as oracles:
* `dns : String → Option String` models `socket.gethostbyname`
  (`none` models a raised `socket.gaierror`);
* `probe : Nat → ProbeEvent` models `sock.connect_ex((target, port))`
  under the configured timeout (`ProbeEvent.code n` is the integer error
  code it returns, `0` on success; `ProbeEvent.exc m` models an exception
  raised by the attempt, caught by `scan_port`'s `except` clause);
* `svc : Nat → Option String` models `socket.getservbyport`
  (`none` models a raised exception, caught by the bare `except`).

The thread pool's only observable nondeterminism is the order in which
`as_completed` delivers finished futures, so `port_scan` takes the
completion order as an explicit list of ports (a permutation of the port
range in an actual run).  Machine strings are Lean `String`s; all the
host identifiers concerned are ASCII, where Python's `str.isdigit`
coincides with `Char.isDigit` on every character.
-/

namespace PortScanner

/-- Splitting a character list at every occurrence of a separator,
keeping empty segments, as Python's `str.split(sep)` does.  The result
is always non-empty. -/
def splitOnChar (sep : Char) : List Char → List (List Char)
  | [] => [[]]
  | c :: rest =>
    if c = sep then
      [] :: splitOnChar sep rest
    else
      match splitOnChar sep rest with
      | [] => [[c]]
      | p :: ps => (c :: p) :: ps

/-- Python's `str.isdigit` on ASCII text: the string is non-empty and
every character is a decimal digit. -/
def pythonIsDigit (l : List Char) : Bool :=
  !l.isEmpty && l.all Char.isDigit

/-- Numeric value of a decimal digit string, as Python's `int` computes
it for a plain digit literal. -/
def digitsToNat (l : List Char) : Nat :=
  l.foldl (fun a c => 10 * a + (c.toNat - Char.toNat '0')) 0

/-- Python's `int(s)` restricted to the plain nonnegative decimal
literals that occur here; `none` models the `ValueError` it raises on
anything else (such as `"abc"`). -/
def pyInt? (l : List Char) : Option Nat :=
  if pythonIsDigit l then some (digitsToNat l) else none

/-- The test `self.target.replace('.', '').isdigit()` from
`resolve_target` (line 28 of the source): drop every dot, then ask
whether what remains is a non-empty all-digit string. -/
def isNumericHost (s : String) : Bool :=
  pythonIsDigit (s.data.filter (fun c => c ≠ '.'))

/-- `PortScanner.resolve_target` (lines 24–36).  Besides the returned
value (`none` models the `return None` taken on `socket.gaierror`), the
embedding also reports how many name lookups were performed (0 or 1) and
the console messages printed, in order. -/
def resolve_target (dns : String → Option String) (target : String) :
    Option String × Nat × List String :=
  if !isNumericHost target then
    match dns target with
    | some ip => (some ip, 1, ["[+] " ++ target ++ " résolu en " ++ ip])
    | none => (none, 1, ["[-] Impossible de résoudre " ++ target])
  else
    (some target, 0, [])

/-- Outcome of one `connect_ex` attempt: the integer code it returns
(`0` on success), or an exception escaping the attempt, caught by
`scan_port`'s `except Exception` clause. -/
inductive ProbeEvent where
  | code (n : Nat)
  | exc (msg : String)
deriving DecidableEq

/-- The `common_services` dictionary of `get_service_name`
(lines 61–66), with its `.get(port, 'Inconnu')` default. -/
def common_services_get (port : Nat) : String :=
  if port = 21 then "FTP"
  else if port = 22 then "SSH"
  else if port = 23 then "Telnet"
  else if port = 25 then "SMTP"
  else if port = 53 then "DNS"
  else if port = 80 then "HTTP"
  else if port = 110 then "POP3"
  else if port = 143 then "IMAP"
  else if port = 443 then "HTTPS"
  else if port = 993 then "IMAPS"
  else if port = 995 then "POP3S"
  else if port = 3306 then "MySQL"
  else if port = 5432 then "PostgreSQL"
  else if port = 3389 then "RDP"
  else "Inconnu"

/-- `PortScanner.get_service_name` (lines 53–67): try
`socket.getservbyport` (the `svc` oracle); on any failure fall back to
the static `common_services` table with default `'Inconnu'`. -/
def get_service_name (svc : Nat → Option String) (port : Nat) : String :=
  match svc port with
  | some service => service
  | none => common_services_get port

/-- `PortScanner.scan_port` (lines 38–51): one `connect_ex` attempt,
returning the tuple `(port, service, status)`; the `service` slot is
`none` where Python stores `None`. -/
def scan_port (probe : Nat → ProbeEvent) (svc : Nat → Option String) (port : Nat) :
    Nat × Option String × String :=
  match probe port with
  | ProbeEvent.code result =>
    if result = 0 then (port, some (get_service_name svc port), "ouvert")
    else (port, none, "fermé")
  | ProbeEvent.exc e => (port, none, "erreur: " ++ e)

/-- One iteration of the `for future in as_completed(...)` loop of
`port_scan` (lines 86–90): unpack the finished future's tuple and append
`(port, service)` to `open_ports` exactly when the status is
`"ouvert"`. -/
def probeStep (probe : Nat → ProbeEvent) (svc : Nat → Option String)
    (acc : List (Nat × Option String)) (port : Nat) : List (Nat × Option String) :=
  let r := scan_port probe svc port
  if r.2.2 = "ouvert" then acc ++ [(r.1, r.2.1)] else acc

/-- The result-collection loop of `PortScanner.port_scan`
(lines 78–90): consume the probe outcomes in the given completion order,
starting from the current `open_ports` list (`[]` for a scanner fresh
from `__init__`). -/
def port_scan (probe : Nat → ProbeEvent) (svc : Nat → Option String)
    (completionOrder : List Nat) (open_ports : List (Nat × Option String)) :
    List (Nat × Option String) :=
  completionOrder.foldl (probeStep probe svc) open_ports

/-- The parse `start_port, end_port = map(int, port_range.split('-'))`
(line 74).  `none` models the uncaught `ValueError` raised either by
`int` on a non-numeric bound or by unpacking when the split does not
yield exactly two parts. -/
def parsePortRange (s : String) : Option (Nat × Nat) :=
  match splitOnChar '-' s.data with
  | [a, b] =>
    match pyInt? a, pyInt? b with
    | some sp, some ep => some (sp, ep)
    | _, _ => none
  | _ => none

/-- `ports_to_scan = range(start_port, end_port + 1)` (line 75): the
ports enumerated by the scan, empty when `end_port < start_port`. -/
def portsToScan (sp ep : Nat) : List Nat :=
  List.range' sp (ep + 1 - sp)

/-- `PortScanner.port_scan` as a whole (lines 69–90), from a scanner
fresh from `__init__`: parse the range, then run the collection loop
over the resulting ports.  `none` models the uncaught `ValueError`
aborting the method before any probe is dispatched. -/
def port_scan_run (probe : Nat → ProbeEvent) (svc : Nat → Option String)
    (portRange : String) : Option (List (Nat × Option String)) :=
  match parsePortRange portRange with
  | none => none
  | some (sp, ep) => some (port_scan probe svc (portsToScan sp ep) [])

/-- The scan-driving part of `main` (lines 136–150): resolve the target;
on failure (`if not resolved_target: return`) stop without scanning.
Returns the outcome (`none` when no scan ran), the number of port probes
performed (one per enumerated port), and the resolver's console
messages. -/
def mainRun (dns : String → Option String) (probe : Nat → ProbeEvent)
    (svc : Nat → Option String) (target ports : String) :
    Option (List (Nat × Option String)) × Nat × List String :=
  match resolve_target dns target with
  | (none, _, msgs) => (none, 0, msgs)
  | (some ip, _, msgs) =>
    if ip = "" then (none, 0, msgs)
    else
      match parsePortRange ports with
      | none => (none, 0, msgs)
      | some (sp, ep) =>
        (some (port_scan probe svc (portsToScan sp ep) []), (portsToScan sp ep).length, msgs)

/-- The double-quote character, written by code point to keep string
literals simple. -/
def quoteChar : Char := Char.ofNat 34

/-- Whether Python's `csv` writer (dialect `QUOTE_MINIMAL`) must quote a
field: it contains the delimiter, a quote, or a line break. -/
def needsQuote (s : String) : Bool :=
  s.data.any (fun c => c = ',' || c = quoteChar || c = Char.ofNat 10 || c = Char.ofNat 13)

/-- Quote-doubling performed inside a quoted CSV field. -/
def escapeQuotes (l : List Char) : List Char :=
  (l.map (fun c => if c = quoteChar then [quoteChar, quoteChar] else [c])).flatten

/-- One rendered CSV field under `QUOTE_MINIMAL`. -/
def csvField (s : String) : String :=
  if needsQuote s then
    String.mk (quoteChar :: escapeQuotes s.data ++ [quoteChar])
  else s

/-- One data row written by `save_results` in CSV mode for a tuple
result (lines 106–108 and 115): the dict
`{"port": port, "service": service, "banner": ""}` rendered in the
`fieldnames` order `port, service, banner`; Python's csv writer renders
a `None` field as the empty string. -/
def csvRow (r : Nat × Option String) : String :=
  csvField (toString r.1) ++ "," ++ csvField (r.2.getD "") ++ "," ++ csvField ""

/-- The lines of the CSV file written by `PortScanner.save_results` with
`fmt = "csv"` (lines 100–116): the `writeheader()` line followed by one
row per accumulated open port. -/
def save_results_csv (open_ports : List (Nat × Option String)) : List String :=
  "port,service,banner" :: open_ports.map csvRow

/-- The contents of the last comma-separated column of a CSV line:
everything after the final comma. -/
def lastCsvField (s : String) : String :=
  String.mk ((s.data.reverse.takeWhile (fun c => c ≠ ',')).reverse)

/-- A valid literal IPv4 address in dotted-quad notation, following the
spec's words: four dot-separated decimal components, each a digit string
with value at most 255. -/
def isValidIPv4 (s : String) : Bool :=
  match splitOnChar '.' s.data with
  | [a, b, c, d] => [a, b, c, d].all (fun p => pythonIsDigit p && decide (digitsToNat p ≤ 255))
  | _ => false

/-- The contribution of one port to the accumulated result list:
`some (port, service)` exactly when its probe outcome has status
`"ouvert"`. -/
def openEntry (probe : Nat → ProbeEvent) (svc : Nat → Option String) (port : Nat) :
    Option (Nat × Option String) :=
  if (scan_port probe svc port).2.2 = "ouvert" then
    some ((scan_port probe svc port).1, (scan_port probe svc port).2.1)
  else none

theorem scan_port_fst (probe : Nat → ProbeEvent) (svc : Nat → Option String) (port : Nat) :
    (scan_port probe svc port).1 = port := by
  unfold scan_port
  cases probe port with
  | code n =>
    by_cases h : n = 0 <;> simp [h]
  | exc m => rfl

theorem port_scan_eq_filterMap (probe : Nat → ProbeEvent) (svc : Nat → Option String)
    (order : List Nat) (init : List (Nat × Option String)) :
    port_scan probe svc order init = init ++ order.filterMap (openEntry probe svc) := by
  induction order generalizing init with
  | nil => simp [port_scan]
  | cons p rest ih =>
    show List.foldl (probeStep probe svc) (probeStep probe svc init p) rest = _
    rw [show List.foldl (probeStep probe svc) (probeStep probe svc init p) rest =
      port_scan probe svc rest (probeStep probe svc init p) from rfl, ih]
    by_cases h : (scan_port probe svc p).2.2 = "ouvert"
    · simp [probeStep, openEntry, h]
    · simp [probeStep, openEntry, h]

theorem openEntry_eq_some (probe : Nat → ProbeEvent) (svc : Nat → Option String)
    (q p : Nat) (s : Option String) :
    openEntry probe svc q = some (p, s) ↔
      q = p ∧ scan_port probe svc q = (q, s, "ouvert") := by
  have hfst := scan_port_fst probe svc q
  unfold openEntry
  rcases hsp : scan_port probe svc q with ⟨a, b, c⟩
  rw [hsp] at hfst
  obtain rfl : a = q := hfst
  by_cases h : c = "ouvert"
  · subst h
    simp
  · simp [h]

/-- Membership in the result list of a scan started from the empty
`open_ports` list. -/
theorem mem_port_scan (probe : Nat → ProbeEvent) (svc : Nat → Option String)
    (order : List Nat) (p : Nat) (s : Option String) :
    (p, s) ∈ port_scan probe svc order [] ↔
      p ∈ order ∧ scan_port probe svc p = (p, s, "ouvert") := by
  rw [port_scan_eq_filterMap]
  simp only [List.nil_append, List.mem_filterMap]
  constructor
  · rintro ⟨q, hq, hsome⟩
    obtain ⟨rfl, h2⟩ := (openEntry_eq_some probe svc q p s).mp hsome
    exact ⟨hq, h2⟩
  · rintro ⟨hp, h2⟩
    exact ⟨p, hp, (openEntry_eq_some probe svc p p s).mpr ⟨rfl, h2⟩⟩

/-- C2: for a scan run on a scanner fresh from `__init__`
(`open_ports = []`), whatever order the futures complete in, the
accumulated result list contains the pair `(p, s)` exactly when port `p`
was scanned and its probe outcome was the tuple `(p, s, "ouvert")` —
every open outcome is accumulated, and no closed or errored outcome ever
appears. -/
theorem C2_open_only (probe : Nat → ProbeEvent) (svc : Nat → Option String)
    (order : List Nat) (p : Nat) (s : Option String) :
    (p, s) ∈ port_scan probe svc order [] ↔
      p ∈ order ∧ scan_port probe svc p = (p, s, "ouvert") :=
  mem_port_scan probe svc order p s

/-- Witness for C2 at a concrete scan: probing ports 20 and 22 with both
accepting the connection puts `(22, "SSH")` in the result list. -/
theorem C2_witness :
    ((22 : Nat), (some "SSH" : Option String)) ∈
      port_scan (fun _ => ProbeEvent.code 0) (fun _ => none) [20, 22] [] :=
  (C2_open_only (fun _ => ProbeEvent.code 0) (fun _ => none) [20, 22] 22
    (some "SSH")).mpr ⟨by decide, by decide⟩

theorem erreur_ne_ouvert (m : String) : "erreur: " ++ m ≠ "ouvert" := by
  intro h
  have hlen := congrArg String.length h
  rw [String.length_append] at hlen
  have h8 : String.length "erreur: " = 8 := rfl
  have h6 : String.length "ouvert" = 6 := rfl
  rw [h8, h6] at hlen
  omega

/-- C5: a probe whose `connect_ex` does not return `0` is contained in
its per-port outcome: a nonzero return code is classified `"fermé"`, an
exception raised by the attempt is caught and classified
`"erreur: ..."`, and in either case the port never appears in the
accumulated open list of any scan, in any completion order; `scan_port`
is total, so no probe failure escapes it. -/
theorem C5_failure_contained (probe : Nat → ProbeEvent) (svc : Nat → Option String)
    (order : List Nat) (port : Nat) (h : probe port ≠ ProbeEvent.code 0) :
    (∀ c, probe port = ProbeEvent.code c →
      scan_port probe svc port = (port, none, "fermé")) ∧
    (∀ m, probe port = ProbeEvent.exc m →
      scan_port probe svc port = (port, none, "erreur: " ++ m)) ∧
    (∀ s, (port, s) ∉ port_scan probe svc order []) := by
  refine ⟨?_, ?_, ?_⟩
  · intro c hc
    have hcne : c ≠ 0 := by
      rintro rfl
      exact h hc
    simp [scan_port, hc, hcne]
  · intro m hm
    simp [scan_port, hm]
  · intro s hmem
    obtain ⟨hin, heq⟩ := (mem_port_scan probe svc order port s).mp hmem
    cases hp : probe port with
    | code c =>
      by_cases hc : c = 0
      · exact h (hc ▸ hp)
      · have hsp : scan_port probe svc port = (port, none, "fermé") := by
          simp [scan_port, hp, hc]
        rw [hsp] at heq
        have h3 : "fermé" = "ouvert" := congrArg (fun t => t.2.2) heq
        exact absurd h3 (by decide)
    | exc m =>
      have hsp : scan_port probe svc port = (port, none, "erreur: " ++ m) := by
        simp [scan_port, hp]
      rw [hsp] at heq
      have h3 : "erreur: " ++ m = "ouvert" := congrArg (fun t => t.2.2) heq
      exact erreur_ne_ouvert m h3

/-- Witness for C5: a probe returning error code 111 (refused) is
classified `"fermé"`. -/
theorem C5_witness :
    scan_port (fun _ => ProbeEvent.code 111) (fun _ => none) 80 = (80, none, "fermé") :=
  (C5_failure_contained (fun _ => ProbeEvent.code 111) (fun _ => none) [80] 80
    (by decide)).1 111 rfl

/-- C7: two runs of the same scan configuration over the same static
port statuses (the same `probe` and `svc` oracles), each from a scanner
fresh from `__init__`, produce the same open result set — the two
accumulated lists are permutations of each other whatever completion
orders the two runs' thread pools produced. -/
theorem C7_idempotent (probe : Nat → ProbeEvent) (svc : Nat → Option String)
    (sp ep : Nat) (o1 o2 : List Nat)
    (h1 : o1.Perm (portsToScan sp ep)) (h2 : o2.Perm (portsToScan sp ep)) :
    (port_scan probe svc o1 []).Perm (port_scan probe svc o2 []) := by
  rw [port_scan_eq_filterMap, port_scan_eq_filterMap]
  simp only [List.nil_append]
  exact (h1.trans h2.symm).filterMap _

/-- Witness for C7 at the range 1–3, with two different completion
orders. -/
theorem C7_witness :
    (port_scan (fun _ => ProbeEvent.code 0) (fun _ => none) [2, 1, 3] []).Perm
      (port_scan (fun _ => ProbeEvent.code 0) (fun _ => none) [3, 1, 2] []) :=
  C7_idempotent (fun _ => ProbeEvent.code 0) (fun _ => none) 1 3 [2, 1, 3] [3, 1, 2]
    (by decide) (by decide)

/-- A host identifier passing the numeric test is returned unchanged,
with no name lookup and no console message. -/
theorem numericHost_resolve (dns : String → Option String) (s : String)
    (h : isNumericHost s = true) : resolve_target dns s = (some s, 0, []) := by
  simp [resolve_target, h]

theorem splitOnChar_ne_nil (sep : Char) (l : List Char) : splitOnChar sep l ≠ [] := by
  induction l with
  | nil => simp [splitOnChar]
  | cons c rest ih =>
    by_cases h : c = sep
    · simp [splitOnChar, h]
    · simp only [splitOnChar, if_neg h]
      cases hs : splitOnChar sep rest <;> simp

theorem filter_eq_flatten_splitOnChar (sep : Char) (l : List Char) :
    l.filter (fun c => c ≠ sep) = (splitOnChar sep l).flatten := by
  simp only [ne_eq, decide_not]
  induction l with
  | nil => simp [splitOnChar]
  | cons c rest ih =>
    by_cases h : c = sep
    · subst h
      simp [splitOnChar, List.filter_cons, ih]
    · simp only [splitOnChar, if_neg h]
      cases hs : splitOnChar sep rest with
      | nil => exact absurd hs (splitOnChar_ne_nil sep rest)
      | cons pp ps =>
        rw [hs] at ih
        simp [List.filter_cons, h, ih]

/-- C3: when the host identifier fails the numeric test and the name
lookup fails (`socket.gaierror`), `resolve_target` returns no address
and prints the failure message carrying the original identifier, and
`main` stops before the scan: its result is `none` and zero port probes
are performed. -/
theorem C3_resolution_failure (dns : String → Option String) (probe : Nat → ProbeEvent)
    (svc : Nat → Option String) (target ports : String)
    (h1 : isNumericHost target = false) (h2 : dns target = none) :
    (resolve_target dns target).1 = none ∧
    ("[-] Impossible de résoudre " ++ target) ∈ (resolve_target dns target).2.2 ∧
    (mainRun dns probe svc target ports).1 = none ∧
    (mainRun dns probe svc target ports).2.1 = 0 := by
  have hres : resolve_target dns target =
      (none, 1, ["[-] Impossible de résoudre " ++ target]) := by
    simp [resolve_target, h1, h2]
  refine ⟨?_, ?_, ?_, ?_⟩
  · rw [hres]
  · rw [hres]
    exact List.mem_singleton.mpr rfl
  · simp [mainRun, hres]
  · simp [mainRun, hres]

/-- Witness for C3: an unresolvable domain name aborts everything. -/
theorem C3_witness :
    (resolve_target (fun _ => none) "unknown.example").1 = none ∧
    ("[-] Impossible de résoudre " ++ "unknown.example") ∈
      (resolve_target (fun _ => none) "unknown.example").2.2 ∧
    (mainRun (fun _ => none) (fun _ => ProbeEvent.code 0) (fun _ => none)
      "unknown.example" "1-10").1 = none ∧
    (mainRun (fun _ => none) (fun _ => ProbeEvent.code 0) (fun _ => none)
      "unknown.example" "1-10").2.1 = 0 :=
  C3_resolution_failure (fun _ => none) (fun _ => ProbeEvent.code 0) (fun _ => none)
    "unknown.example" "1-10" (by decide) rfl

/-- C6: a valid literal IPv4 address is returned unchanged by the
resolver, with no name lookup performed and no message printed. -/
theorem C6_literal_ipv4 (dns : String → Option String) (s : String)
    (h : isValidIPv4 s = true) :
    resolve_target dns s = (some s, 0, []) := by
  apply numericHost_resolve
  unfold isValidIPv4 at h
  unfold isNumericHost
  rw [filter_eq_flatten_splitOnChar]
  rcases hsplit : splitOnChar '.' s.data with _ | ⟨a, _ | ⟨b, _ | ⟨c, _ | ⟨d, _ | ⟨e, rest⟩⟩⟩⟩⟩
  · rw [hsplit] at h
    exact absurd h (by simp)
  · rw [hsplit] at h
    exact absurd h (by simp)
  · rw [hsplit] at h
    exact absurd h (by simp)
  · rw [hsplit] at h
    exact absurd h (by simp)
  · rw [hsplit] at h
    simp only [List.all_cons, List.all_nil, Bool.and_true, Bool.and_eq_true,
      decide_eq_true_eq] at h
    obtain ⟨⟨ha, _⟩, ⟨hb, _⟩, ⟨hc, _⟩, ⟨hd, _⟩⟩ := h
    simp only [List.flatten_cons, List.flatten_nil, List.append_nil]
    simp only [pythonIsDigit, Bool.and_eq_true, List.all_append] at ha hb hc hd ⊢
    refine ⟨?_, ha.2, hb.2, hc.2, hd.2⟩
    have hne : a ≠ [] := by
      intro hnil
      rw [hnil] at ha
      exact absurd ha.1 (by simp)
    cases a with
    | nil => exact absurd rfl hne
    | cons x xs => simp
  · rw [hsplit] at h
    exact absurd h (by simp)

/-- Witness for C6 at the literal address 192.168.1.1, with a name
lookup oracle that would answer something else. -/
theorem C6_witness :
    resolve_target (fun _ => some "10.0.0.1") "192.168.1.1" =
      (some "192.168.1.1", 0, []) :=
  C6_literal_ipv4 (fun _ => some "10.0.0.1") "192.168.1.1" (by decide)

/-- C10 as stated is false: the identifier `"."` is composed only of
decimal digits and dots, yet `".".replace('.', '').isdigit()` is false
(the empty string has no digits), so `resolve_target` performs a name
lookup instead of returning it unchanged. -/
theorem C10_counterexample :
    (∀ c ∈ String.data ".", c.isDigit = true ∨ c = '.') ∧
    (resolve_target (fun _ => none) ".").2.1 = 1 ∧
    (resolve_target (fun _ => none) ".").1 ≠ some "." := by
  refine ⟨by decide, by decide, by decide⟩

/-- C10 amended: every host identifier composed only of decimal digits
and dots that contains at least one digit — including non-addresses such
as `"999.999.999.999"` or `"1234"` — is treated as a literal address and
returned unchanged, with no validation and no name lookup. -/
theorem C10_amended_numeric (dns : String → Option String) (s : String)
    (h1 : ∀ c ∈ s.data, c.isDigit = true ∨ c = '.')
    (h2 : ∃ c ∈ s.data, c.isDigit = true) :
    resolve_target dns s = (some s, 0, []) := by
  apply numericHost_resolve
  obtain ⟨c0, hc0mem, hc0⟩ := h2
  have hc0ne : c0 ≠ '.' := by
    intro hdot
    rw [hdot] at hc0
    exact absurd hc0 (by decide)
  have hc0f : c0 ∈ s.data.filter (fun c => c ≠ '.') :=
    List.mem_filter.mpr ⟨hc0mem, by simp [hc0ne]⟩
  simp only [pythonIsDigit, isNumericHost, Bool.and_eq_true]
  constructor
  · rw [Bool.not_eq_true']
    rw [List.isEmpty_eq_false_iff_exists_mem]
    exact ⟨c0, hc0f⟩
  · rw [List.all_eq_true]
    intro c hc
    obtain ⟨hcs, hcdot⟩ := List.mem_filter.mp hc
    rcases h1 c hcs with hdig | hdot
    · exact hdig
    · rw [hdot] at hcdot
      simp at hcdot

/-- Witness for the amended C10: the non-address `"999.999.999.999"` is
returned unchanged with no lookup. -/
theorem C10_witness :
    resolve_target (fun _ => none) "999.999.999.999" =
      (some "999.999.999.999", 0, []) :=
  C10_amended_numeric (fun _ => none) "999.999.999.999" (by decide) (by decide)

/-- C1 as stated is false: for the malformed range `"100-50"`
(start greater than end) the parse succeeds, `range(100, 51)` is empty,
and the scan completes normally with an empty result — no error of any
kind is raised, before or after probing (here under an oracle that would
report every probed port open, so the empty result also shows no port
was probed). -/
theorem C1_counterexample :
    parsePortRange "100-50" = some (100, 50) ∧
    portsToScan 100 50 = [] ∧
    port_scan_run (fun _ => ProbeEvent.code 0) (fun _ => none) "100-50" = some [] :=
  ⟨by decide, by decide, by decide⟩

/-- C1 amended: a port-range expression with non-numeric bounds (or not
exactly two bounds) makes `port_scan` fail before any probing begins —
with an uncaught `ValueError`, not a dedicated configuration error —
while a well-formed expression with start greater than end is not
rejected at all: the port set is empty and the scan completes normally
with no probes and an empty result.  Out-of-range bounds are not
validated. -/
theorem C1_amended_range (probe : Nat → ProbeEvent) (svc : Nat → Option String)
    (s : String) (sp ep : Nat) :
    (parsePortRange s = none → port_scan_run probe svc s = none) ∧
    (parsePortRange s = some (sp, ep) → ep < sp →
      portsToScan sp ep = [] ∧ port_scan_run probe svc s = some []) := by
  constructor
  · intro h
    simp [port_scan_run, h]
  · intro h hlt
    have hempty : portsToScan sp ep = [] := by
      unfold portsToScan
      rw [show ep + 1 - sp = 0 from by omega]
      rfl
    refine ⟨hempty, ?_⟩
    simp [port_scan_run, h, hempty, port_scan]

/-- Witness for the amended C1: `"abc-100"` aborts the scan before any
probe; `"100-50"` completes with an empty result. -/
theorem C1_witness :
    port_scan_run (fun _ => ProbeEvent.code 1) (fun _ => none) "abc-100" = none ∧
    port_scan_run (fun _ => ProbeEvent.code 1) (fun _ => none) "100-50" = some [] :=
  ⟨(C1_amended_range (fun _ => ProbeEvent.code 1) (fun _ => none) "abc-100" 0 0).1
      (by decide),
    ((C1_amended_range (fun _ => ProbeEvent.code 1) (fun _ => none) "100-50" 100 50).2
      (by decide) (by decide)).2⟩

/-- C4 as stated is false in one detail: the sentinel label the
classifier returns for a port with no service-database entry and no
static-table entry is the string `"Inconnu"`, not `"Unknown"`. -/
theorem C4_counterexample :
    get_service_name (fun _ => none) 12345 = "Inconnu" ∧ "Inconnu" ≠ "Unknown" :=
  ⟨by decide, by decide⟩

/-- C4 amended: the classifier is a total function (never fails); when
the OS service-database lookup fails it returns the static-table label
for each of the 14 listed well-known ports, and the sentinel `"Inconnu"`
(the code's spelling of the Unknown label) for every other port. -/
theorem C4_amended_classifier (svc : Nat → Option String) (h : ∀ p, svc p = none) :
    get_service_name svc 21 = "FTP" ∧ get_service_name svc 22 = "SSH" ∧
    get_service_name svc 23 = "Telnet" ∧ get_service_name svc 25 = "SMTP" ∧
    get_service_name svc 53 = "DNS" ∧ get_service_name svc 80 = "HTTP" ∧
    get_service_name svc 110 = "POP3" ∧ get_service_name svc 143 = "IMAP" ∧
    get_service_name svc 443 = "HTTPS" ∧ get_service_name svc 993 = "IMAPS" ∧
    get_service_name svc 995 = "POP3S" ∧ get_service_name svc 3306 = "MySQL" ∧
    get_service_name svc 5432 = "PostgreSQL" ∧ get_service_name svc 3389 = "RDP" ∧
    ∀ p, p ∉ [21, 22, 23, 25, 53, 80, 110, 143, 443, 993, 995, 3306, 5432, 3389] →
      get_service_name svc p = "Inconnu" := by
  refine ⟨?_, ?_, ?_, ?_, ?_, ?_, ?_, ?_, ?_, ?_, ?_, ?_, ?_, ?_, ?_⟩
  case _ => simp [get_service_name, h, common_services_get]
  case _ => simp [get_service_name, h, common_services_get]
  case _ => simp [get_service_name, h, common_services_get]
  case _ => simp [get_service_name, h, common_services_get]
  case _ => simp [get_service_name, h, common_services_get]
  case _ => simp [get_service_name, h, common_services_get]
  case _ => simp [get_service_name, h, common_services_get]
  case _ => simp [get_service_name, h, common_services_get]
  case _ => simp [get_service_name, h, common_services_get]
  case _ => simp [get_service_name, h, common_services_get]
  case _ => simp [get_service_name, h, common_services_get]
  case _ => simp [get_service_name, h, common_services_get]
  case _ => simp [get_service_name, h, common_services_get]
  case _ => simp [get_service_name, h, common_services_get]
  case _ =>
    intro p hp
    simp only [List.mem_cons, List.not_mem_nil, or_false, not_or] at hp
    obtain ⟨h21, h22, h23, h25, h53, h80, h110, h143, h443, h993, h995, h3306,
      h5432, h3389⟩ := hp
    simp [get_service_name, h, common_services_get, h21, h22, h23, h25, h53, h80,
      h110, h143, h443, h993, h995, h3306, h5432, h3389]

/-- Witness for the amended C4: with every database lookup failing, port
22 maps to SSH and a port outside the table maps to the sentinel. -/
theorem C4_witness :
    get_service_name (fun _ => none) 22 = "SSH" ∧
    get_service_name (fun _ => none) 9999 = "Inconnu" :=
  ⟨(C4_amended_classifier (fun _ => none) (fun _ => rfl)).2.1,
    (C4_amended_classifier (fun _ => none)
      (fun _ => rfl)).2.2.2.2.2.2.2.2.2.2.2.2.2.2 9999 (by decide)⟩

theorem lastCsvField_append_comma (s : String) : lastCsvField (s ++ ",") = "" := by
  unfold lastCsvField
  rw [String.data_append, show ("," : String).data = [','] from rfl, List.reverse_append]
  simp [List.takeWhile_cons]

/-- C8: the CSV serialization of any accumulated result list is the
header line `port,service,banner` followed by exactly one row per open
port — `1 + n` lines in total — and the banner column (the text after
the last comma of each row) is empty in every row. -/
theorem C8_csv_shape (l : List (Nat × Option String)) :
    (save_results_csv l).length = 1 + l.length ∧
    (save_results_csv l).head? = some "port,service,banner" ∧
    ∀ r ∈ l, lastCsvField (csvRow r) = "" := by
  refine ⟨?_, rfl, ?_⟩
  · simp [save_results_csv, Nat.add_comm]
  · intro r _
    show lastCsvField
      (csvField (toString r.1) ++ "," ++ csvField (r.2.getD "") ++ "," ++ csvField "") = ""
    rw [show csvField "" = "" from rfl, String.append_empty]
    exact lastCsvField_append_comma _

/-- Witness for C8: serializing two open ports emits exactly 3 lines,
and the row of port 443 has an empty banner column. -/
theorem C8_witness :
    (save_results_csv [(80, some "HTTP"), (443, some "HTTPS")]).length = 1 + 2 ∧
    lastCsvField (csvRow (443, some "HTTPS")) = "" :=
  ⟨(C8_csv_shape [(80, some "HTTP"), (443, some "HTTPS")]).1,
    (C8_csv_shape [(80, some "HTTP"), (443, some "HTTPS")]).2.2 (443, some "HTTPS")
      (by simp)⟩

end PortScanner
